import Mathlib

/-
Verification of the DemandVox embed-reconciler scripts.

Shallow embedding of the final revision of `src/assets/js/delphi.js`
(and, for the auto-scroll controller, of the revision in
`src/unnamed/part_002`).  DOM documents are modelled abstractly: an
element is a record of the fields the code actually reads
(computed display / visibility, laid-out client rects, scrollHeight),
and a document maps CSS selectors to the first matching element.
JavaScript numbers that are integral in practice (pixel heights,
scroll offsets, millisecond timestamps) are modelled as `Nat`;
the float constants 0.87 and 1.2 are modelled as the exact
rationals 87/100 and 12/10.
-/

namespace DemandVox

/-- The four mode strings returned by `getDelphiMode`. -/
inductive Mode where
  | call_mode
  | chat_mode
  | overview_mode
  | unknown_mode
deriving DecidableEq, Repr

/-- The fields of an embedded-document element that the reconciler reads. -/
structure Element where
  /-- computed style `display` -/
  display : String
  /-- computed style `visibility` -/
  visibility : String
  /-- `getClientRects().length` -/
  clientRects : Nat
  /-- `scrollHeight` -/
  scrollHeight : Nat
deriving DecidableEq, Repr

/-- The embedded iframe document, as read by the reconciler:
`querySelector` (first match per selector), `body` (possibly null) and
`documentElement` (always present). -/
structure Doc where
  query : String → Option Element
  body : Option Element
  documentElement : Element

/- Selectors used by the mode detector and the height reconciler.
The attribute selector is written without its inner quotes. -/

def callSel : String := ".delphi-call-container"

def convSel : String := ".delphi-chat-conversation"

def talkSel : String := "[data-sentry-component=Talk]"

def profileSel : String := ".delphi-profile-container"

/-- `isElementVisible(el, view)` of delphi.js (final revision):
null is not visible; computed `display:none` or `visibility:hidden`
is not visible; otherwise visibility means at least one client rect. -/
def isElementVisible (el : Option Element) : Bool :=
  match el with
  | none => false
  | some e =>
    if e.display = "none" then false
    else if e.visibility = "hidden" then false
    else decide (0 < e.clientRects)

/-- `queryVisible(doc, selector)`: the matched element if it is visible,
else null. -/
def queryVisible (d : Doc) (selector : String) : Option Element :=
  let el := d.query selector
  if isElementVisible el then el else none

/-- `getDelphiMode(doc)` of the final revision: priority order
call, then chat (two markers), then overview, else unknown,
each marker tested for visibility. -/
def getDelphiMode (doc : Option Doc) : Mode :=
  match doc with
  | none => .unknown_mode
  | some d =>
    if (queryVisible d callSel).isSome then .call_mode
    else if (queryVisible d convSel).isSome ∨ (queryVisible d talkSel).isSome then
      .chat_mode
    else if (queryVisible d profileSel).isSome then .overview_mode
    else .unknown_mode

/-- `Math.floor(window.innerHeight * MIN_IFRAME_VIEWPORT_RATIO)` with
`MIN_IFRAME_VIEWPORT_RATIO = 0.87`, for integral viewport height `V`. -/
def minIframeHeight (V : Nat) : Nat := 87 * V / 100

/-- `el?.scrollHeight || 0` for a possibly-null element. -/
def optScrollHeight (el : Option Element) : Nat :=
  match el with
  | some e => e.scrollHeight
  | none => 0

/-- `getActiveHeightRoot(mode)` of the final revision (the `||` chains of
visible candidates followed by `doc.body`; in the default branch
`doc.body || doc.documentElement`). -/
def getActiveHeightRoot (d : Doc) (mode : Mode) : Option Element :=
  match mode with
  | .call_mode =>
    match queryVisible d callSel with
    | some el => some el
    | none => d.body
  | .chat_mode =>
    match queryVisible d convSel with
    | some el => some el
    | none =>
      match queryVisible d talkSel with
      | some el => some el
      | none => d.body
  | .overview_mode =>
    match queryVisible d profileSel with
    | some el => some el
    | none => d.body
  | .unknown_mode =>
    match d.body with
    | some el => some el
    | none => some d.documentElement

/-- The chat-mode branch of `resizeIframe` in the final revision:
`best = Math.max(convoH, talkH, rootH)`, then
`if (best === 0 || docH <= best * 1.2) best = Math.max(best, docH)`.
The comparison `docH <= best * 1.2` is modelled exactly as
`10 * docH <= 12 * best`. -/
def chatContentHeight (d : Doc) : Nat :=
  let root := getActiveHeightRoot d .chat_mode
  let convoH := optScrollHeight (d.query convSel)
  let talkH := optScrollHeight (d.query talkSel)
  let rootH := optScrollHeight root
  let docH := d.documentElement.scrollHeight
  let best := Nat.max (Nat.max convoH talkH) rootH
  if best = 0 ∨ 10 * docH ≤ 12 * best then Nat.max best docH else best

/-- The measured content height of `resizeIframe` (final revision):
chat mode uses the candidate maximum, other modes use
`root ? root.scrollHeight : doc.documentElement.scrollHeight`. -/
def resizeContentHeight (d : Doc) : Nat :=
  let mode := getDelphiMode (some d)
  if mode = .chat_mode then chatContentHeight d
  else
    match getActiveHeightRoot d mode with
    | some r => r.scrollHeight
    | none => d.documentElement.scrollHeight

/-- The height applied by `resizeIframe` (final revision):
`finalHeight = Math.max(contentHeight, minHeight)`. -/
def resizeIframeHeight (V : Nat) (d : Doc) : Nat :=
  Nat.max (resizeContentHeight d) (minIframeHeight V)

/-- The height applied by one stabilization tick of
`stabilizeHeightOnModeEntry`:
`nextHeight = Math.max(contentHeight, minHeight)` where `contentHeight`
is the active-root scrollHeight for the (unchanged) target mode. -/
def stabilizeTickHeight (V : Nat) (d : Doc) (m : Mode) : Nat :=
  let contentHeight :=
    match getActiveHeightRoot d m with
    | some r => r.scrollHeight
    | none => d.documentElement.scrollHeight
  Nat.max contentHeight (minIframeHeight V)

lemma queryVisible_isSome (d : Doc) (s : String) :
    (queryVisible d s).isSome = isElementVisible (d.query s) := by
  unfold queryVisible
  cases h : isElementVisible (d.query s) with
  | false => simp [h]
  | true =>
    simp only [h, if_true]
    cases hq : d.query s with
    | none => rw [hq] at h; simp [isElementVisible] at h
    | some e => simp

/-- C1: whenever the height reconciler applies a height (in `resizeIframe`
of the final revision and in each stabilization tick of
`stabilizeHeightOnModeEntry`), the applied height equals
max(measured content height of the mode-appropriate root, floor(V × 0.87)),
and in particular is at least floor(V × 0.87) = 87·V/100. -/
theorem resize_applied_height_floor (V : Nat) (d : Doc) (m : Mode) :
    minIframeHeight V ≤ resizeIframeHeight V d ∧
    minIframeHeight V ≤ stabilizeTickHeight V d m ∧
    resizeIframeHeight V d = Nat.max (resizeContentHeight d) (minIframeHeight V) ∧
    stabilizeTickHeight V d m =
      Nat.max
        (match getActiveHeightRoot d m with
          | some r => r.scrollHeight
          | none => d.documentElement.scrollHeight)
        (minIframeHeight V) ∧
    minIframeHeight V = 87 * V / 100 := by
  refine ⟨?_, ?_, rfl, rfl, rfl⟩
  · exact Nat.le_max_right _ _
  · exact Nat.le_max_right _ _

/-- The best chat-candidate height `Math.max(convoH, talkH, rootH)`
(spec-side abbreviation for stating the C2 characterization). -/
def chatBest (d : Doc) : Nat :=
  Nat.max
    (Nat.max (optScrollHeight (d.query convSel))
      (optScrollHeight (d.query talkSel)))
    (optScrollHeight (getActiveHeightRoot d .chat_mode))

/-- C2: in chat mode the measured content height is the maximum of the
candidate containers (conversation, Talk component, active height root),
and the whole-document scrollHeight enters the maximum exactly when the
best candidate is 0 or the document height is at most 1.2 times the best
candidate; otherwise the document height is strictly larger than the
result and is discarded. -/
theorem chat_content_height_spec (d : Doc) :
    (optScrollHeight (d.query convSel) ≤ chatContentHeight d ∧
      optScrollHeight (d.query talkSel) ≤ chatContentHeight d ∧
      optScrollHeight (getActiveHeightRoot d .chat_mode) ≤
        chatContentHeight d) ∧
    ((chatBest d = 0 ∨
        10 * d.documentElement.scrollHeight ≤ 12 * chatBest d) →
      chatContentHeight d =
        Nat.max (chatBest d) d.documentElement.scrollHeight) ∧
    (¬ (chatBest d = 0 ∨
        10 * d.documentElement.scrollHeight ≤ 12 * chatBest d) →
      chatContentHeight d = chatBest d ∧
      chatContentHeight d < d.documentElement.scrollHeight) := by
  have hbest : chatContentHeight d =
      if chatBest d = 0 ∨
          10 * d.documentElement.scrollHeight ≤ 12 * chatBest d then
        Nat.max (chatBest d) d.documentElement.scrollHeight
      else chatBest d := rfl
  constructor
  · have h1 : optScrollHeight (d.query convSel) ≤ chatBest d :=
      le_trans (Nat.le_max_left _ _) (Nat.le_max_left _ _)
    have h2 : optScrollHeight (d.query talkSel) ≤ chatBest d :=
      le_trans (Nat.le_max_right _ _) (Nat.le_max_left _ _)
    have h3 : optScrollHeight (getActiveHeightRoot d .chat_mode) ≤
        chatBest d := Nat.le_max_right _ _
    have hb : chatBest d ≤ chatContentHeight d := by
      rw [hbest]
      split
      · exact Nat.le_max_left _ _
      · exact le_refl _
    exact ⟨le_trans h1 hb, le_trans h2 hb, le_trans h3 hb⟩
  constructor
  · intro h
    rw [hbest, if_pos h]
  · intro h
    rw [hbest, if_neg h]
    refine ⟨rfl, ?_⟩
    omega

/-- A concrete chat-mode document: a visible conversation container of
scrollHeight 300, no Talk component, body of scrollHeight 200 and a
whole document of scrollHeight 330 (within 20% of the best candidate). -/
def exampleChatDoc : Doc :=
  { query := fun s =>
      if s = convSel then
        some { display := "block", visibility := "visible",
               clientRects := 1, scrollHeight := 300 }
      else none,
    body := some { display := "block", visibility := "visible",
                   clientRects := 1, scrollHeight := 200 },
    documentElement := { display := "block", visibility := "visible",
                         clientRects := 1, scrollHeight := 330 } }

/-- Witness for C2: on the concrete document the best candidate is 300,
the document height 330 is within 20% of it, and the measured chat
content height is max(300, 330) = 330. -/
theorem chat_content_height_spec_witness :
    chatContentHeight exampleChatDoc = 330 := by
  have h := (chat_content_height_spec exampleChatDoc).2.1 (by decide)
  rw [h]
  decide

/-- C3: the mode detector returns exactly one of the four mode values,
testing visibility (not mere presence) of the marker elements in the
priority order call, chat, overview, and returns `unknown_mode` when no
marker is visible; it is a pure function of the document (no mutation). -/
theorem getDelphiMode_spec (d : Doc) :
    (getDelphiMode (some d) = .call_mode ↔
      isElementVisible (d.query callSel) = true) ∧
    (getDelphiMode (some d) = .chat_mode ↔
      (isElementVisible (d.query callSel) = false ∧
        (isElementVisible (d.query convSel) = true ∨
          isElementVisible (d.query talkSel) = true))) ∧
    (getDelphiMode (some d) = .overview_mode ↔
      (isElementVisible (d.query callSel) = false ∧
        isElementVisible (d.query convSel) = false ∧
        isElementVisible (d.query talkSel) = false ∧
        isElementVisible (d.query profileSel) = true)) ∧
    (getDelphiMode (some d) = .unknown_mode ↔
      (isElementVisible (d.query callSel) = false ∧
        isElementVisible (d.query convSel) = false ∧
        isElementVisible (d.query talkSel) = false ∧
        isElementVisible (d.query profileSel) = false)) ∧
    getDelphiMode none = .unknown_mode := by
  cases hcall : isElementVisible (d.query callSel) <;>
    cases hconv : isElementVisible (d.query convSel) <;>
      cases htalk : isElementVisible (d.query talkSel) <;>
        cases hprof : isElementVisible (d.query profileSel) <;>
          simp [getDelphiMode, queryVisible_isSome, hcall, hconv, htalk, hprof]

/-
`waitForIframe(selector, onFound)`: a 200ms interval polls
`document.querySelector(selector)`.  Tick n (n = 1, 2, ...) happens at
time 200·n after start.  If the element is present the interval is
cleared and the callback invoked; otherwise, if elapsed time exceeds
15000ms, an error is logged and the interval is cleared.
-/

/-- Observable state of one `waitForIframe` invocation:
whether the interval is still installed, how often `onFound` ran,
at which tick it ran, and whether the timeout error was logged. -/
structure PollState where
  running : Bool
  callbackCount : Nat
  foundTick : Option Nat
  errorLogged : Bool
deriving DecidableEq, Repr

def pollInit : PollState :=
  { running := true, callbackCount := 0, foundTick := none, errorLogged := false }

/-- One interval tick of `waitForIframe`.  `present n` says whether the
iframe element exists at tick n; `Date.now() - start` at tick n is
`200 * n`. -/
def pollTick (present : Nat → Bool) (n : Nat) (s : PollState) : PollState :=
  if s.running = false then s
  else if present n then
    { running := false, callbackCount := s.callbackCount + 1,
      foundTick := some n, errorLogged := s.errorLogged }
  else if 15000 < 200 * n then
    { s with running := false, errorLogged := true }
  else s

/-- The poll state after the first `N` ticks. -/
def pollRun (present : Nat → Bool) : Nat → PollState
  | 0 => pollInit
  | n + 1 => pollTick present (n + 1) (pollRun present n)

lemma pollTick_stopped (present : Nat → Bool) (n : Nat) (s : PollState)
    (h : s.running = false) : pollTick present n s = s := by
  unfold pollTick
  rw [h]
  simp

lemma pollRun_no_find (present : Nat → Bool) (k : Nat)
    (h : ∀ j, 1 ≤ j → j ≤ k → present j = false) (hk : 200 * k ≤ 15000) :
    pollRun present k = pollInit := by
  induction k with
  | zero => rfl
  | succ m ih =>
    have hm : pollRun present m = pollInit := by
      apply ih
      · intro j h1 h2
        exact h j h1 (Nat.le_succ_of_le h2)
      · omega
    unfold pollRun
    rw [hm]
    unfold pollTick
    rw [h (m + 1) (by omega) (le_refl _)]
    simp only [pollInit]
    have : ¬ (15000 < 200 * (m + 1)) := by omega
    simp [this]

lemma pollRun_frozen (present : Nat → Bool) (k N : Nat) (hkN : k ≤ N)
    (h : (pollRun present k).running = false) :
    pollRun present N = pollRun present k := by
  induction N with
  | zero =>
    have : k = 0 := Nat.le_zero.mp hkN
    rw [this]
  | succ m ih =>
    rcases Nat.lt_or_ge k (m + 1) with hlt | hge
    · have hm := ih (Nat.lt_succ_iff.mp hlt)
      show pollTick present (m + 1) (pollRun present m) = pollRun present k
      rw [hm, pollTick_stopped present (m + 1) _ h]
    · have : k = m + 1 := le_antisymm hkN hge
      rw [this]

/-- C7: if the element never appears, polling stops at tick 76
(the first tick past the 15000ms timeout) with the error logged and the
callback never invoked; if the element first appears at tick k while
polling is still alive, the interval is cleared there and the callback
is invoked exactly once, at tick k, with no error. -/
theorem waitForIframe_spec (present : Nat → Bool) (N : Nat) :
    ((∀ j, present j = false) → 76 ≤ N →
      (pollRun present N).running = false ∧
      (pollRun present N).errorLogged = true ∧
      (pollRun present N).callbackCount = 0 ∧
      (pollRun present N).foundTick = none) ∧
    (∀ k, 1 ≤ k → (∀ j, j < k → present j = false) → present k = true →
      k ≤ 76 → k ≤ N →
      (pollRun present N).running = false ∧
      (pollRun present N).callbackCount = 1 ∧
      (pollRun present N).foundTick = some k ∧
      (pollRun present N).errorLogged = false) := by
  constructor
  · intro hnone hN
    have h75 : pollRun present 75 = pollInit := by
      apply pollRun_no_find
      · intro j _ _; exact hnone j
      · omega
    have h76 : pollRun present 76 =
        { running := false, callbackCount := 0, foundTick := none,
          errorLogged := true } := by
      show pollTick present 76 (pollRun present 75) = _
      rw [h75]
      unfold pollTick pollInit
      rw [hnone 76]
      norm_num
    have := pollRun_frozen present 76 N hN (by rw [h76])
    rw [this, h76]
    exact ⟨rfl, rfl, rfl, rfl⟩
  · intro k hk1 hprev hk hk76 hkN
    have hpre : pollRun present (k - 1) = pollInit := by
      apply pollRun_no_find
      · intro j h1 h2
        exact hprev j (by omega)
      · omega
    have hkstep : pollRun present k =
        { running := false, callbackCount := 1, foundTick := some k,
          errorLogged := false } := by
      have hk' : k = (k - 1) + 1 := by omega
      rw [hk']
      show pollTick present (k - 1 + 1) (pollRun present (k - 1)) = _
      rw [hpre]
      unfold pollTick pollInit
      rw [← hk', hk]
      simp
    have := pollRun_frozen present k N hkN (by rw [hkstep])
    rw [this, hkstep]
    exact ⟨rfl, rfl, rfl, rfl⟩

/-- Witness for C7: with an element that first appears at tick 3,
running 80 ticks invokes the callback exactly once at tick 3; with an
element that never appears, running 80 ticks logs the error and never
invokes the callback. -/
theorem waitForIframe_spec_witness :
    (pollRun (fun n => n == 3) 80).callbackCount = 1 ∧
    (pollRun (fun n => n == 3) 80).foundTick = some 3 ∧
    (pollRun (fun _ => false) 80).errorLogged = true ∧
    (pollRun (fun _ => false) 80).callbackCount = 0 := by
  have h1 := (waitForIframe_spec (fun n => n == 3) 80).2 3
    (by decide) (by decide) (by decide) (by decide) (by decide)
  have h2 := (waitForIframe_spec (fun _ => false) 80).1
    (fun _ => rfl) (by decide)
  exact ⟨h1.2.1, h1.2.2.1, h2.2.1, h2.2.2.1⟩

/-
DOM rules (final revision).  Each registered rule touches at most the
first element matching its selector, so per rule the document is
modelled as that one optional element.  `apply` returns the document
after the rule ran together with a flag recording whether the rule
mutated the DOM (wrote text, wrote a style, or removed a node).
-/

/-- The fields of a rule target element: text content, inline style
visibility, and the `__dvRemoved` idempotency mark. -/
structure RElem where
  textContent : String
  visibility : String
  dvRemoved : Bool
deriving DecidableEq, Repr

/-- `INTRO_TITLE` (the source string contains an apostrophe between the
I and the m, omitted here; only trim-stability of the string matters). -/
def INTRO_TITLE : String := "Hi, I m Michael"

/-- The semantics of JavaScript `String.prototype.trim`: drop whitespace
from both ends (defined over the character list so that it evaluates by
kernel reduction). -/
def jsTrim (s : String) : String :=
  ⟨((s.data.dropWhile Char.isWhitespace).reverse.dropWhile
      Char.isWhitespace).reverse⟩

/-- `ruleForceText`: compare `(el.textContent || "").trim()` against the
desired text and write only on mismatch. -/
def ruleForceText (desired : String) (docEl : Option RElem) :
    Option RElem × Bool :=
  match docEl with
  | none => (none, false)
  | some el =>
    if jsTrim el.textContent ≠ desired then
      (some { el with textContent := desired }, true)
    else (some el, false)

/-- `ruleHideButKeepLayout`: set `style.visibility = "hidden"` only when
it is not already hidden. -/
def ruleHideButKeepLayout (docEl : Option RElem) : Option RElem × Bool :=
  match docEl with
  | none => (none, false)
  | some el =>
    if el.visibility ≠ "hidden" then
      (some { el with visibility := "hidden" }, true)
    else (some el, false)

/-- `ruleRemoveElement` (final revision): skip if the `__dvRemoved` mark
is set, else mark and remove the element from the DOM (after which the
selector no longer matches). -/
def ruleRemoveElement (docEl : Option RElem) : Option RElem × Bool :=
  match docEl with
  | none => (none, false)
  | some el =>
    if el.dvRemoved then (some el, false)
    else (none, true)

/-- C8: each of the three rule builders is idempotent: the second of two
successive applications performs no further mutation and leaves the
document unchanged; forcing text that already matches does not touch the
element, hiding an already-hidden element is a no-op, and removing an
already-removed element is a no-op.  For `ruleForceText` the desired
text must be trim-stable, as `INTRO_TITLE` (the only registered use) is. -/
theorem dom_rules_idempotent (desired : String) (hdes : jsTrim desired = desired)
    (docEl : Option RElem) :
    ruleForceText desired (ruleForceText desired docEl).1 =
      ((ruleForceText desired docEl).1, false) ∧
    ruleHideButKeepLayout (ruleHideButKeepLayout docEl).1 =
      ((ruleHideButKeepLayout docEl).1, false) ∧
    ruleRemoveElement (ruleRemoveElement docEl).1 =
      ((ruleRemoveElement docEl).1, false) ∧
    (∀ el : RElem, jsTrim el.textContent = desired →
      ruleForceText desired (some el) = (some el, false)) ∧
    (∀ el : RElem, el.visibility = "hidden" →
      ruleHideButKeepLayout (some el) = (some el, false)) ∧
    (∀ el : RElem, el.dvRemoved = true →
      ruleRemoveElement (some el) = (some el, false)) ∧
    ruleRemoveElement none = (none, false) := by
  refine ⟨?_, ?_, ?_, ?_, ?_, ?_, rfl⟩
  · cases docEl with
    | none => rfl
    | some el =>
      unfold ruleForceText
      by_cases h : jsTrim el.textContent = desired
      · simp [h]
      · simp only [h, ne_eq, not_false_eq_true, if_true, not_true_eq_false]
        simp [hdes]
  · cases docEl with
    | none => rfl
    | some el =>
      unfold ruleHideButKeepLayout
      by_cases h : el.visibility = "hidden"
      · simp [h]
      · simp [h]
  · cases docEl with
    | none => rfl
    | some el =>
      unfold ruleRemoveElement
      by_cases h : el.dvRemoved
      · simp [h]
      · simp [h]
  · intro el h
    unfold ruleForceText
    simp [h]
  · intro el h
    unfold ruleHideButKeepLayout
    simp [h]
  · intro el h
    unfold ruleRemoveElement
    simp [h]

/-- Witness for C8: the registered `overview-title` rule text is
trim-stable, and applying each rule twice to a concrete fresh element
mutates only on the first application. -/
theorem dom_rules_idempotent_witness :
    jsTrim INTRO_TITLE = INTRO_TITLE ∧
    ruleForceText INTRO_TITLE
        (ruleForceText INTRO_TITLE
          (some { textContent := "", visibility := "visible",
                  dvRemoved := false })).1 =
      ((ruleForceText INTRO_TITLE
          (some { textContent := "", visibility := "visible",
                  dvRemoved := false })).1, false) := by
  have h := dom_rules_idempotent INTRO_TITLE (by decide)
    (some { textContent := "", visibility := "visible", dvRemoved := false })
  exact ⟨by decide, h.1⟩

/-
Auto-scroll-once controller of `src/unnamed/part_002`
(`enableIframeAutoResize` / `resizeIframe`).  The closure state consists
of the two flags, the last observed mode, pending 150ms entry-correction
timeouts and — as observables — the number of performed auto-scrolls
(calls of `window.scrollTo` inside `scrollOuterPageToIframeBottom`,
performed only when `targetScrollTop > 0`) and the number of
transitions into chat mode.  Each event carries the mode read by
`getDelphiMode` at that instant and whether `targetScrollTop > 0`
would hold.
-/

namespace Part002

/-- Closure state of `enableIframeAutoResize` (part_002) plus the two
ghost counters `scrolls` and `chatEntries`. -/
structure ARState where
  userHasScrolled : Bool
  firstAutoScrollDone : Bool
  lastMode : Mode
  pendingTimeouts : Nat
  scrolls : Nat
  chatEntries : Nat
deriving DecidableEq, Repr

/-- Events delivered to the controller: an interval tick, a scroll event
on the outer window, or the firing of a scheduled 150ms entry timeout.
`m` is the mode at that instant, `pos` whether the computed
`targetScrollTop` is positive. -/
inductive AREvent where
  | tick (m : Mode) (pos : Bool)
  | scrollEvt (m : Mode)
  | timeoutFire (m : Mode) (pos : Bool)
deriving DecidableEq, Repr

/-- `resizeIframe()` of part_002, restricted to its scroll behaviour:
in chat mode, if neither flag is set, perform the one auto-scroll
(counted only when `targetScrollTop > 0`) and set
`firstAutoScrollDone`. -/
def resizeStep (m : Mode) (pos : Bool) (s : ARState) : ARState :=
  if m = .chat_mode ∧ s.userHasScrolled = false ∧
      s.firstAutoScrollDone = false then
    { s with scrolls := s.scrolls + (if pos then 1 else 0),
             firstAutoScrollDone := true }
  else s

/-- One interval tick: `resizeIframe()` first, then the mode-transition
block; on a transition into chat mode both flags are reset and the
150ms correction timeout is scheduled. -/
def tickStep (m : Mode) (pos : Bool) (s : ARState) : ARState :=
  let s1 := resizeStep m pos s
  if m ≠ s1.lastMode then
    if m = .chat_mode then
      { s1 with userHasScrolled := false, firstAutoScrollDone := false,
                pendingTimeouts := s1.pendingTimeouts + 1,
                chatEntries := s1.chatEntries + 1, lastMode := m }
    else { s1 with lastMode := m }
  else s1

/-- The passive outer-window scroll listener: sets `userHasScrolled`
only while in chat mode. -/
def scrollStep (m : Mode) (s : ARState) : ARState :=
  if m = .chat_mode then { s with userHasScrolled := true } else s

/-- The 150ms entry-correction timeout body:
`resizeIframe(); scrollOuterPageToIframeBottom(); firstAutoScrollDone = true`
— the direct scroll call is unconditional (no flag or mode check). -/
def timeoutStep (m : Mode) (pos : Bool) (s : ARState) : ARState :=
  if 0 < s.pendingTimeouts then
    let s1 := resizeStep m pos { s with pendingTimeouts := s.pendingTimeouts - 1 }
    { s1 with scrolls := s1.scrolls + (if pos then 1 else 0),
              firstAutoScrollDone := true }
  else s

def arStep (s : ARState) : AREvent → ARState
  | .tick m pos => tickStep m pos s
  | .scrollEvt m => scrollStep m s
  | .timeoutFire m pos => timeoutStep m pos s

/-- Initial state of `enableIframeAutoResize`: flags cleared, `lastMode`
read once, then the initial `resizeIframe()` call. -/
def arInit (m0 : Mode) (pos0 : Bool) : ARState :=
  resizeStep m0 pos0
    { userHasScrolled := false, firstAutoScrollDone := false,
      lastMode := m0, pendingTimeouts := 0, scrolls := 0, chatEntries := 0 }

def arRun (m0 : Mode) (pos0 : Bool) (events : List AREvent) : ARState :=
  events.foldl arStep (arInit m0 pos0)

/-- Counterexample to C4: starting in overview mode, one interval tick
entering chat mode performs an auto-scroll (the pre-transition
`resizeIframe` call), then the user scrolls, and the 150ms entry
timeout still performs another auto-scroll — two scrolls in a single
chat-mode entry, the second after the user-has-scrolled flag was set
for that entry. -/
theorem autoscroll_once_counterexample :
    (arRun .overview_mode false
        [.tick .chat_mode true, .scrollEvt .chat_mode]).scrolls = 1 ∧
    (arRun .overview_mode false
        [.tick .chat_mode true, .scrollEvt .chat_mode]).userHasScrolled
      = true ∧
    (arRun .overview_mode false
        [.tick .chat_mode true, .scrollEvt .chat_mode]).chatEntries = 1 ∧
    (arRun .overview_mode false
        [.tick .chat_mode true, .scrollEvt .chat_mode,
         .timeoutFire .chat_mode true]).scrolls = 2 ∧
    (arRun .overview_mode false
        [.tick .chat_mode true, .scrollEvt .chat_mode,
         .timeoutFire .chat_mode true]).chatEntries = 1 := by
  decide

/-- The potential used for the amended C4 bound. -/
def arPot (s : ARState) : Nat :=
  s.scrolls + s.pendingTimeouts + (if s.firstAutoScrollDone then 0 else 1)

@[simp] lemma resizeStep_lastMode (m : Mode) (pos : Bool) (s : ARState) :
    (resizeStep m pos s).lastMode = s.lastMode := by
  unfold resizeStep; split <;> rfl

@[simp] lemma resizeStep_pending (m : Mode) (pos : Bool) (s : ARState) :
    (resizeStep m pos s).pendingTimeouts = s.pendingTimeouts := by
  unfold resizeStep; split <;> rfl

@[simp] lemma resizeStep_entries (m : Mode) (pos : Bool) (s : ARState) :
    (resizeStep m pos s).chatEntries = s.chatEntries := by
  unfold resizeStep; split <;> rfl

@[simp] lemma resizeStep_uhs (m : Mode) (pos : Bool) (s : ARState) :
    (resizeStep m pos s).userHasScrolled = s.userHasScrolled := by
  unfold resizeStep; split <;> rfl

lemma resizeStep_cases (m : Mode) (pos : Bool) (s : ARState) :
    resizeStep m pos s = s ∨
    (s.firstAutoScrollDone = false ∧
      resizeStep m pos s =
        { s with scrolls := s.scrolls + (if pos then 1 else 0),
                 firstAutoScrollDone := true }) := by
  unfold resizeStep
  split
  · rename_i h
    exact Or.inr ⟨h.2.2, rfl⟩
  · exact Or.inl rfl

lemma resizeStep_pot (m : Mode) (pos : Bool) (s : ARState) :
    arPot (resizeStep m pos s) ≤ arPot s := by
  rcases resizeStep_cases m pos s with h | ⟨hf, h⟩
  · rw [h]
  · rw [h]
    simp only [arPot, hf]
    cases pos <;> simp <;> omega

lemma resizeStep_base (m : Mode) (pos : Bool) (s : ARState) :
    (resizeStep m pos s).scrolls + (resizeStep m pos s).pendingTimeouts ≤
      arPot s := by
  rcases resizeStep_cases m pos s with h | ⟨hf, h⟩ <;> rw [h]
  · unfold arPot
    split <;> omega
  · simp only [arPot, hf]
    cases pos <;> simp <;> omega

lemma arStep_pot (s : ARState) (e : AREvent) :
    arPot (arStep s e) + 2 * s.chatEntries ≤
      arPot s + 2 * (arStep s e).chatEntries := by
  cases e with
  | tick m pos =>
    show arPot (tickStep m pos s) + 2 * s.chatEntries ≤
      arPot s + 2 * (tickStep m pos s).chatEntries
    unfold tickStep
    simp only [resizeStep_lastMode, ne_eq]
    by_cases h1 : m = s.lastMode
    · rw [if_neg (by simp [h1])]
      have hp := resizeStep_pot m pos s
      have he := resizeStep_entries m pos s
      omega
    · rw [if_pos h1]
      by_cases h2 : m = Mode.chat_mode
      · subst h2
        rw [if_pos rfl]
        have hb := resizeStep_base Mode.chat_mode pos s
        have he := resizeStep_entries Mode.chat_mode pos s
        have hpe := resizeStep_pending Mode.chat_mode pos s
        unfold arPot at hb ⊢
        simp only [he, hpe]
        simp
        omega
      · rw [if_neg h2]
        have hp := resizeStep_pot m pos s
        have he := resizeStep_entries m pos s
        simp only [arPot] at hp ⊢
        omega
  | scrollEvt m =>
    show arPot (scrollStep m s) + 2 * s.chatEntries ≤
      arPot s + 2 * (scrollStep m s).chatEntries
    unfold scrollStep arPot
    split <;> simp
  | timeoutFire m pos =>
    show arPot (timeoutStep m pos s) + 2 * s.chatEntries ≤
      arPot s + 2 * (timeoutStep m pos s).chatEntries
    unfold timeoutStep
    split
    · rename_i hpos
      have hb := resizeStep_base m pos
        { s with pendingTimeouts := s.pendingTimeouts - 1 }
      have he := resizeStep_entries m pos
        { s with pendingTimeouts := s.pendingTimeouts - 1 }
      have hpe := resizeStep_pending m pos
        { s with pendingTimeouts := s.pendingTimeouts - 1 }
      simp only [arPot] at hb ⊢
      cases pos <;> simp at he hpe hb ⊢ <;> omega
    · omega

lemma arRun_pot (m0 : Mode) (pos0 : Bool) (events : List AREvent) :
    arPot (arRun m0 pos0 events) ≤
      2 * (arRun m0 pos0 events).chatEntries + 1 := by
  have hinit : arPot (arInit m0 pos0) ≤ 2 * (arInit m0 pos0).chatEntries + 1 := by
    unfold arInit
    have h1 := resizeStep_pot m0 pos0
      { userHasScrolled := false, firstAutoScrollDone := false,
        lastMode := m0, pendingTimeouts := 0, scrolls := 0, chatEntries := 0 }
    have h3 := resizeStep_entries m0 pos0
      { userHasScrolled := false, firstAutoScrollDone := false,
        lastMode := m0, pendingTimeouts := 0, scrolls := 0, chatEntries := 0 }
    rw [h3]
    refine le_trans h1 ?_
    simp [arPot]
  suffices h : ∀ (l : List AREvent) (s : ARState),
      arPot s ≤ 2 * s.chatEntries + 1 →
      arPot (l.foldl arStep s) ≤ 2 * (l.foldl arStep s).chatEntries + 1 by
    exact h events (arInit m0 pos0) hinit
  intro l
  induction l with
  | nil => intro s hs; exact hs
  | cons e t ih =>
    intro s hs
    apply ih
    have := arStep_pot s e
    omega

/-- C4 amended (part of proof obligations): per run, the number of
performed auto-scrolls is at most 2·(number of transitions into chat
mode) + 1 — up to two per chat entry plus one at initialization —
rather than at most one per entry; the 150ms entry-correction scroll is
performed even after the user-has-scrolled flag is set (see the
counterexample); and both flags are indeed reset (and the entry counted)
on every transition into chat mode. -/
theorem autoscroll_bound_and_reset (m0 : Mode) (pos0 : Bool)
    (events : List AREvent) (s : ARState) (pos : Bool)
    (hs : s.lastMode ≠ .chat_mode) :
    (arRun m0 pos0 events).scrolls ≤
      2 * (arRun m0 pos0 events).chatEntries + 1 ∧
    (tickStep .chat_mode pos s).userHasScrolled = false ∧
    (tickStep .chat_mode pos s).firstAutoScrollDone = false ∧
    (tickStep .chat_mode pos s).chatEntries = s.chatEntries + 1 := by
  constructor
  · have h := arRun_pot m0 pos0 events
    unfold arPot at h
    split at h <;> omega
  · unfold tickStep
    have hcond : (Mode.chat_mode ≠ s.lastMode) := fun hc => hs hc.symm
    simp [resizeStep_lastMode, resizeStep_entries, hcond]

/-- Witness for the amended C4: a concrete run (entry into chat, user
scroll, entry timeout) performs 2 scrolls with 1 chat entry, within the
bound, and the concrete transition tick resets both flags. -/
theorem autoscroll_bound_and_reset_witness :
    (arRun .overview_mode false
        [.tick .chat_mode true, .scrollEvt .chat_mode,
         .timeoutFire .chat_mode true]).scrolls ≤
      2 * (arRun .overview_mode false
        [.tick .chat_mode true, .scrollEvt .chat_mode,
         .timeoutFire .chat_mode true]).chatEntries + 1 ∧
    (tickStep .chat_mode true (arInit .overview_mode false)).userHasScrolled
      = false := by
  have h := autoscroll_bound_and_reset .overview_mode false
    [.tick .chat_mode true, .scrollEvt .chat_mode,
     .timeoutFire .chat_mode true]
    (arInit .overview_mode false) true (by decide)
  exact ⟨h.1, h.2.1⟩

end Part002

/-
Programmatic auto-scroll suppressor (`installIframeAutoScrollBlocker`,
final revision): `startLock` captures positions, the rAF guard
`enforceLockOnce` reverts non-user downward movement.  The re-acquisition
of the internal scroller by `ensureLockedScroller` is abstracted to
"the current scroller position, when a scroller exists"; `userActive`
stands for `recentlyUserIntent()` (a user wheel / touchmove / scroll-key
signal within the 450ms grace window).
-/

/-- Lock state of the auto-scroll blocker. -/
structure LockState where
  lockActive : Bool
  lockedOuterTop : Nat
  lockedScrollerTop : Nat
deriving DecidableEq, Repr

/-- The corrective `window.scrollTo` / `scroller.scrollTop` writes
performed by one guard tick (`none` when no revert happened). -/
structure GuardEffect where
  outerRevertTo : Option Nat
  scrollerRevertTo : Option Nat
deriving DecidableEq, Repr

/-- `startLock(reason)`: ignored outside chat mode; otherwise captures
the current outer scroll position and the internal scroller position
(`scroller ? (scroller.scrollTop || 0) : 0`) and activates the lock. -/
def startLock (mode : Mode) (outerTop : Nat) (scrollerTop : Option Nat)
    (s : LockState) : LockState :=
  if mode ≠ .chat_mode then s
  else
    { lockActive := true, lockedOuterTop := outerTop,
      lockedScrollerTop := scrollerTop.getD 0 }

/-- `enforceLockOnce()`: when the lock is active, for both the outer page
and the internal scroller — if the user is active, adopt the current
position as the new baseline; otherwise revert downward movement of more
than one pixel to the captured baseline, adopt upward movement of more
than one pixel as the new baseline, and leave movement within the
one-pixel tolerance alone. -/
def enforceLockOnce (s : LockState) (userActive : Bool) (outerTop : Nat)
    (scrollerTop : Option Nat) : LockState × GuardEffect :=
  if s.lockActive = false then (s, ⟨none, none⟩)
  else
    let outerPair :=
      if userActive then (outerTop, (none : Option Nat))
      else if s.lockedOuterTop + 1 < outerTop then
        (s.lockedOuterTop, some s.lockedOuterTop)
      else if outerTop + 1 < s.lockedOuterTop then (outerTop, none)
      else (s.lockedOuterTop, none)
    let scrollerPair :=
      match scrollerTop with
      | none => (s.lockedScrollerTop, (none : Option Nat))
      | some cur =>
        if userActive then (cur, (none : Option Nat))
        else if s.lockedScrollerTop + 1 < cur then
          (s.lockedScrollerTop, some s.lockedScrollerTop)
        else if cur + 1 < s.lockedScrollerTop then (cur, none)
        else (s.lockedScrollerTop, none)
    ({ lockActive := true, lockedOuterTop := outerPair.1,
       lockedScrollerTop := scrollerPair.1 },
     ⟨outerPair.2, scrollerPair.2⟩)

/-- Counterexample to C5 as stated: with the lock active at captured
outer position 100, a non-user downward movement to 101 (one pixel) is
neither reverted nor adopted — the guard only reverts downward movement
of more than one pixel (`outerTop > lockedOuterTop + 1`). -/
theorem scroll_lock_tolerance_counterexample :
    100 < 101 ∧
    (enforceLockOnce
        { lockActive := true, lockedOuterTop := 100, lockedScrollerTop := 0 }
        false 101 none).2.outerRevertTo = none := by
  constructor
  · decide
  · rfl

/-- C5 amended: starting a lock in chat mode captures both current
positions; while locked, non-user downward movement of more than one
pixel (of either position) is reverted to the captured baseline on the
next guard tick; upward movement of more than one pixel is permitted and
becomes the new baseline; and under a recent user-intent signal (wheel,
touchmove, scroll key) the current — in particular downward — position
is accepted as the new baseline with no revert. -/
theorem scroll_lock_spec (s : LockState) (outerTop o st cur : Nat)
    (scrollerTop : Option Nat) (hA : s.lockActive = true) :
    (startLock .chat_mode o (some st) s =
      { lockActive := true, lockedOuterTop := o, lockedScrollerTop := st }) ∧
    (startLock .chat_mode o none s =
      { lockActive := true, lockedOuterTop := o, lockedScrollerTop := 0 }) ∧
    (s.lockedOuterTop + 1 < outerTop →
      (enforceLockOnce s false outerTop scrollerTop).2.outerRevertTo =
          some s.lockedOuterTop ∧
        (enforceLockOnce s false outerTop scrollerTop).1.lockedOuterTop =
          s.lockedOuterTop) ∧
    (outerTop + 1 < s.lockedOuterTop →
      (enforceLockOnce s false outerTop scrollerTop).2.outerRevertTo = none ∧
        (enforceLockOnce s false outerTop scrollerTop).1.lockedOuterTop =
          outerTop) ∧
    ((enforceLockOnce s true outerTop scrollerTop).2.outerRevertTo = none ∧
      (enforceLockOnce s true outerTop scrollerTop).1.lockedOuterTop =
        outerTop) ∧
    (s.lockedScrollerTop + 1 < cur →
      (enforceLockOnce s false outerTop (some cur)).2.scrollerRevertTo =
          some s.lockedScrollerTop ∧
        (enforceLockOnce s false outerTop (some cur)).1.lockedScrollerTop =
          s.lockedScrollerTop) ∧
    ((enforceLockOnce s true outerTop (some cur)).2.scrollerRevertTo = none ∧
      (enforceLockOnce s true outerTop (some cur)).1.lockedScrollerTop =
        cur) := by
  refine ⟨?_, ?_, ?_, ?_, ?_, ?_, ?_⟩
  · unfold startLock
    simp
  · unfold startLock
    simp
  · intro h
    unfold enforceLockOnce
    rw [hA]
    simp only [Bool.true_eq_false, if_false, if_pos h]
    exact ⟨rfl, rfl⟩
  · intro h
    have hnd : ¬ (s.lockedOuterTop + 1 < outerTop) := by omega
    unfold enforceLockOnce
    rw [hA]
    simp only [Bool.true_eq_false, if_false, if_neg hnd, if_pos h]
    exact ⟨rfl, rfl⟩
  · unfold enforceLockOnce
    rw [hA]
    simp
  · intro h
    unfold enforceLockOnce
    rw [hA]
    simp only [Bool.true_eq_false, if_false, if_pos h]
    exact ⟨rfl, rfl⟩
  · unfold enforceLockOnce
    rw [hA]
    simp

/-- Witness for the amended C5: at a concrete locked state, a 10-pixel
non-user downward movement is reverted to the captured position, and
after a user wheel signal the same downward movement is adopted with no
revert. -/
theorem scroll_lock_spec_witness :
    (enforceLockOnce
        { lockActive := true, lockedOuterTop := 100, lockedScrollerTop := 50 }
        false 110 (some 50)).2.outerRevertTo = some 100 ∧
    (enforceLockOnce
        { lockActive := true, lockedOuterTop := 100, lockedScrollerTop := 50 }
        true 110 (some 50)).1.lockedOuterTop = 110 := by
  have h := scroll_lock_spec
    { lockActive := true, lockedOuterTop := 100, lockedScrollerTop := 50 }
    110 0 0 50 (some 50) rfl
  exact ⟨(h.2.2.1 (by decide)).1, h.2.2.2.2.1.2⟩

/-
Lock lifecycle (`startLock` / `bumpIdleTimer` / `stopLock` and the
stream observer of `installIframeAutoScrollBlocker`).  Times are
milliseconds.  `idleDeadline` models the pending `setTimeout(stopLock,
STREAM_IDLE_MS)`: `bumpIdleTimer` clears and re-arms it, so the timeout
body runs only at the currently armed deadline.  The state also carries
the current mode so that mode-change events are expressible.
-/

def STREAM_IDLE_MS : Nat := 650

/-- Lifecycle state of the blocker lock. -/
structure BlockerState where
  lockActive : Bool
  idleDeadline : Option Nat
  mode : Mode
deriving DecidableEq, Repr

/-- Lifecycle events: a lock start at time t (from a send signal), a
mutation observed inside the chat root at time t, the armed idle timeout
firing at time t, a mode change of the embedded document, and the
explicit uninstall. -/
inductive BlockerEvent where
  | lockStart (t : Nat)
  | mutation (t : Nat)
  | idleFire (t : Nat)
  | modeChange (m : Mode)
  | uninstall
deriving DecidableEq, Repr

/-- `stopLock(reason)`: no-op when not locked, else deactivate and clear
the idle timer. -/
def stopLock (s : BlockerState) : BlockerState :=
  if s.lockActive then
    { s with lockActive := false, idleDeadline := none }
  else s

/-- `bumpIdleTimer()` at time t: no-op when not locked, else re-arm the
idle timeout to fire at t + 650ms. -/
def bumpIdleTimer (t : Nat) (s : BlockerState) : BlockerState :=
  if s.lockActive then
    { s with idleDeadline := some (t + STREAM_IDLE_MS) }
  else s

def blockerStep (s : BlockerState) : BlockerEvent → BlockerState
  | .lockStart t =>
    if s.mode = .chat_mode then
      bumpIdleTimer t { s with lockActive := true }
    else s
  | .mutation t =>
    if s.lockActive then bumpIdleTimer t s else s
  | .idleFire t =>
    if s.idleDeadline = some t then stopLock s else s
  | .modeChange m => { s with mode := m }
  | .uninstall => stopLock s

/-- Counterexample to C6 as stated: with the lock active in chat mode, a
mode change away from chat does not release the lock — no code path
calls `stopLock` on mode change; only the idle timeout and uninstall
do. -/
theorem lock_release_on_mode_change_counterexample :
    (blockerStep
        { lockActive := true, idleDeadline := some 1000, mode := .chat_mode }
        (.modeChange .overview_mode)).lockActive = true ∧
    (blockerStep
        { lockActive := true, idleDeadline := some 1000, mode := .chat_mode }
        (.modeChange .overview_mode)).mode = .overview_mode := by
  decide

/-- C6 amended: while the lock is active every observed mutation in the
chat root re-arms the idle timer to 650ms after the mutation (extending
the lock); the lock is released when the armed idle timeout fires — so
after 650ms with no further mutations — and when the blocker is
uninstalled; a mode change away from chat does NOT release the lock (it
only changes the tracked mode). -/
theorem lock_lifecycle_spec (s : BlockerState) (t : Nat) (m : Mode)
    (hA : s.lockActive = true) :
    (blockerStep s (.mutation t)).idleDeadline = some (t + 650) ∧
    (blockerStep s (.mutation t)).lockActive = true ∧
    (s.idleDeadline = some t →
      (blockerStep s (.idleFire t)).lockActive = false ∧
      (blockerStep s (.idleFire t)).idleDeadline = none) ∧
    ((blockerStep s .uninstall).lockActive = false) ∧
    ((blockerStep s (.modeChange m)).lockActive = true ∧
      (blockerStep s (.modeChange m)).mode = m) := by
  refine ⟨?_, ?_, ?_, ?_, ?_, ?_⟩
  · show (if s.lockActive then bumpIdleTimer t s else s).idleDeadline = _
    rw [hA]
    simp [bumpIdleTimer, hA, STREAM_IDLE_MS]
  · show (if s.lockActive then bumpIdleTimer t s else s).lockActive = true
    rw [hA]
    simp [bumpIdleTimer, hA]
  · intro hd
    show (if s.idleDeadline = some t then stopLock s else s).lockActive = false ∧
      (if s.idleDeadline = some t then stopLock s else s).idleDeadline = none
    rw [if_pos hd]
    unfold stopLock
    rw [hA]
    simp
  · show (stopLock s).lockActive = false
    unfold stopLock
    rw [hA]
    simp
  · exact hA
  · rfl

/-- Witness for the amended C6: from a concrete active lock, a mutation
at t = 400 re-arms the deadline to 1050, the idle timeout firing at the
armed deadline releases the lock, and uninstall releases it. -/
theorem lock_lifecycle_spec_witness :
    (blockerStep
        { lockActive := true, idleDeadline := some 650, mode := .chat_mode }
        (.mutation 400)).idleDeadline = some 1050 ∧
    (blockerStep
        { lockActive := true, idleDeadline := some 650, mode := .chat_mode }
        (.idleFire 650)).lockActive = false ∧
    (blockerStep
        { lockActive := true, idleDeadline := some 650, mode := .chat_mode }
        .uninstall).lockActive = false := by
  have h := lock_lifecycle_spec
    { lockActive := true, idleDeadline := some 650, mode := .chat_mode }
    400 .overview_mode rfl
  have h2 := lock_lifecycle_spec
    { lockActive := true, idleDeadline := some 650, mode := .chat_mode }
    650 .overview_mode rfl
  exact ⟨h.1, (h2.2.2.1 rfl).1, h.2.2.2.1⟩

/-
Per-iframe lifecycle across reloads.  `injectOverridesIntoIframe` is
re-run from the iframe load listener on every reload, but
`registerDelphiDomRules` and `enableIframeAutoResize` each begin with an
install-once guard stored on the persistent iframe object
(`iframe.__dvDomRulesInstalled`, `iframe.__dvAutoResizeInstalled`),
which survives document reloads.  Documents are numbered by generation:
a reload replaces the embedded document (discarding its per-document
watcher runtime) and increments the generation.  `rulesDocs` records the
documents whose watcher runtime received the DOM rules, `autoResizeDoc`
the document captured by the auto-resize closure.
-/

/-- Reload-relevant state attached to one iframe. -/
structure IframeLifecycle where
  domRulesInstalled : Bool
  autoResizeInstalled : Bool
  curDoc : Nat
  rulesDocs : List Nat
  autoResizeDoc : Option Nat
deriving DecidableEq, Repr

/-- `registerDelphiDomRules(iframe)`: install-once guard on the iframe,
then rule registration into the current document's watcher runtime. -/
def registerDelphiDomRulesStep (s : IframeLifecycle) : IframeLifecycle :=
  if s.domRulesInstalled then s
  else
    { s with domRulesInstalled := true,
             rulesDocs := s.rulesDocs ++ [s.curDoc] }

/-- `enableIframeAutoResize(iframe)`: install-once guard on the iframe,
then the closure captures the current document. -/
def enableIframeAutoResizeStep (s : IframeLifecycle) : IframeLifecycle :=
  if s.autoResizeInstalled then s
  else
    { s with autoResizeInstalled := true, autoResizeDoc := some s.curDoc }

/-- `injectOverridesIntoIframe(iframe)` restricted to the two guarded
installations (CSS injection and the blocker are not modelled here). -/
def injectOverridesStep (s : IframeLifecycle) : IframeLifecycle :=
  enableIframeAutoResizeStep (registerDelphiDomRulesStep s)

/-- An iframe reload: a fresh embedded document (next generation) whose
watcher runtime starts empty; the guard flags on the iframe object
survive. -/
def reloadStep (s : IframeLifecycle) : IframeLifecycle :=
  { s with curDoc := s.curDoc + 1 }

def iframeInit : IframeLifecycle :=
  { domRulesInstalled := false, autoResizeInstalled := false,
    curDoc := 0, rulesDocs := [], autoResizeDoc := none }

/-- `n` reload-plus-reinject cycles after the first discovery. -/
def reloadCycles : Nat → IframeLifecycle
  | 0 => injectOverridesStep iframeInit
  | n + 1 => injectOverridesStep (reloadStep (reloadCycles n))

/-- Counterexample to C9: after one reload and the load-event re-run of
`injectOverridesIntoIframe`, the DOM rules have NOT been registered in
the new document's watcher runtime (document 1 is absent from
`rulesDocs`) and the auto-resize closure still operates on the old
document 0 — the install-once guards live on the persistent iframe
object, so per-iframe state is not re-created. -/
theorem reload_recreates_state_counterexample :
    (reloadCycles 1).curDoc = 1 ∧
    (reloadCycles 1).rulesDocs = [0] ∧
    (reloadCycles 1).autoResizeDoc = some 0 := by
  decide

/-- C9 amended: only the first `injectOverridesIntoIframe` run registers
the DOM rules and installs auto-resize, both against document 0; on
every later reload the re-run is a no-op for both (the guards on the
iframe object survive the reload), so the rules are registered for no
new document and auto-resize keeps operating on the original document. -/
lemma reloadCycles_guards (k : Nat) :
    (reloadCycles k).domRulesInstalled = true ∧
    (reloadCycles k).autoResizeInstalled = true := by
  induction k with
  | zero => exact ⟨rfl, rfl⟩
  | succ j ih =>
    obtain ⟨h1, h2⟩ := ih
    show (injectOverridesStep (reloadStep (reloadCycles j))).domRulesInstalled
        = true ∧
      (injectOverridesStep (reloadStep (reloadCycles j))).autoResizeInstalled
        = true
    unfold injectOverridesStep enableIframeAutoResizeStep
      registerDelphiDomRulesStep reloadStep
    simp [h1, h2]

/-- C9 amended: only the first `injectOverridesIntoIframe` run registers
the DOM rules and installs auto-resize, both against document 0; on
every later reload the re-run is a no-op for both (the guards on the
iframe object survive the reload), so the rules are registered for no
new document and auto-resize keeps operating on the original document. -/
theorem reload_guards_persist (n : Nat) (s : IframeLifecycle)
    (hr : s.domRulesInstalled = true) (ha : s.autoResizeInstalled = true) :
    (reloadCycles n).rulesDocs = [0] ∧
    (reloadCycles n).autoResizeDoc = some 0 ∧
    (reloadCycles n).curDoc = n ∧
    registerDelphiDomRulesStep s = s ∧
    enableIframeAutoResizeStep s = s := by
  refine ⟨?_, ?_, ?_, ?_, ?_⟩
  · induction n with
    | zero => rfl
    | succ k ih =>
      obtain ⟨h1, h2⟩ := reloadCycles_guards k
      show (injectOverridesStep (reloadStep (reloadCycles k))).rulesDocs = [0]
      unfold injectOverridesStep enableIframeAutoResizeStep
        registerDelphiDomRulesStep reloadStep
      simp [h1, h2, ih]
  · induction n with
    | zero => rfl
    | succ k ih =>
      obtain ⟨h1, h2⟩ := reloadCycles_guards k
      show (injectOverridesStep (reloadStep (reloadCycles k))).autoResizeDoc
        = some 0
      unfold injectOverridesStep enableIframeAutoResizeStep
        registerDelphiDomRulesStep reloadStep
      simp [h1, h2, ih]
  · induction n with
    | zero => rfl
    | succ k ih =>
      obtain ⟨h1, h2⟩ := reloadCycles_guards k
      show (injectOverridesStep (reloadStep (reloadCycles k))).curDoc = k + 1
      unfold injectOverridesStep enableIframeAutoResizeStep
        registerDelphiDomRulesStep reloadStep
      simp [h1, h2, ih]
  · unfold registerDelphiDomRulesStep
    rw [hr]
    simp
  · unfold enableIframeAutoResizeStep
    rw [ha]
    simp

/-- Witness for the amended C9: after three reload cycles the rules are
still registered only for document 0 and auto-resize still reads
document 0, while the embedded document is generation 3. -/
theorem reload_guards_persist_witness :
    (reloadCycles 3).rulesDocs = [0] ∧
    (reloadCycles 3).autoResizeDoc = some 0 ∧
    (reloadCycles 3).curDoc = 3 := by
  have h := reload_guards_persist 3
    { domRulesInstalled := true, autoResizeInstalled := true,
      curDoc := 0, rulesDocs := [0], autoResizeDoc := some 0 } rfl rfl
  exact ⟨h.1, h.2.1, h.2.2.1⟩

/-
`stabilizeHeightOnModeEntry(targetMode)` (final revision): the iframe is
hidden (`setIframeBusy(iframe, true)`), the height pre-reset to the
floor, and then a per-animation-frame `tick` runs until exit.  The
environment gives, per frame i, the time `performance.now()`, the mode
and the measured active-root content height.  An exit records whether
`setIframeBusy(iframe, false)` is (eventually, via rAF for the finished
case) invoked on that path.
-/

/-- Per-frame environment of the stabilization loop. -/
structure StabEnv where
  time : Nat → Nat
  mode : Nat → Mode
  content : Nat → Nat

/-- Loop state: `lastMeasured` (none for the JS sentinel -1) and the
consecutive stable-frame counter. -/
structure StabState where
  lastMeasured : Option Nat
  stableFrames : Nat
deriving DecidableEq, Repr

/-- How one stabilization run ended; `busyRestored` records the
`setIframeBusy(iframe, false)` call on that exit path. -/
inductive StabExit where
  | abortedModeChange (busyRestored : Bool)
  | finished (busyRestored : Bool) (finalHeight : Nat)
deriving DecidableEq, Repr

def StabExit.busyRestored : StabExit → Bool
  | .abortedModeChange b => b
  | .finished b _ => b

/-- `MODE_ENTRY_STABLE_EPS_PX = 2`: two heights are stable when they
differ by at most 2 (|a - b| over Nat). -/
def stableEps (a b : Nat) : Bool :=
  decide (a - b ≤ 2 ∧ b - a ≤ 2)

/-- One `tick` of `stabilizeHeightOnModeEntry`: abort if the mode left
the target; otherwise apply `max(content, minHeight)`, update the
stable-frame counter, and finish once `MODE_ENTRY_STABLE_FRAMES = 2`
consecutive stable frames are seen or
`MODE_ENTRY_STABILIZE_MAX_MS = 450` ms have elapsed. -/
def stabTick (targetMode : Mode) (minH startedAt : Nat) (env : StabEnv)
    (i : Nat) (s : StabState) : StabExit ⊕ StabState :=
  if env.mode i ≠ targetMode then Sum.inl (.abortedModeChange true)
  else
    let nextHeight := Nat.max (env.content i) minH
    let stableFrames :=
      match s.lastMeasured with
      | some lm => if stableEps nextHeight lm then s.stableFrames + 1 else 0
      | none => 0
    let elapsed := env.time i - startedAt
    if 2 ≤ stableFrames ∨ 450 ≤ elapsed then
      Sum.inl (.finished true nextHeight)
    else
      Sum.inr { lastMeasured := some nextHeight, stableFrames := stableFrames }

/-- Run the tick loop from frame i with the given fuel (`none` when the
fuel is exhausted before any exit). -/
def stabRun (targetMode : Mode) (minH startedAt : Nat) (env : StabEnv) :
    Nat → StabState → Nat → Option StabExit
  | _, _, 0 => none
  | i, s, fuel + 1 =>
    match stabTick targetMode minH startedAt env i s with
    | Sum.inl ex => some ex
    | Sum.inr s1 => stabRun targetMode minH startedAt env (i + 1) s1 fuel

def stabInit : StabState := { lastMeasured := none, stableFrames := 0 }

/-- Counterexample to C10 as stated: the loop does not exit when "2
consecutive measurements differ by at most 2 pixels" — with constant
measured height 500 (mode steady on the target, well before the 450ms
cap) the ticks at frames 0 and 1 measure 500 and 500, yet two frames
bring the stable counter only to 1 < MODE_ENTRY_STABLE_FRAMES = 2, so
the run is still going (exhausting a 2-tick fuel without exit); only
the third frame exits. -/
theorem stabilize_two_measurements_counterexample :
    stabRun .overview_mode 400 0
        { time := fun i => i + 1, mode := fun _ => .overview_mode,
          content := fun _ => 500 }
        0 stabInit 2 = none ∧
    stabRun .overview_mode 400 0
        { time := fun i => i + 1, mode := fun _ => .overview_mode,
          content := fun _ => 500 }
        0 stabInit 3 = some (.finished true 500) := by
  constructor
  · rfl
  · rfl

lemma stabTick_inl (targetMode : Mode) (minH startedAt : Nat)
    (env : StabEnv) (i : Nat) (s : StabState) (ex : StabExit)
    (h : stabTick targetMode minH startedAt env i s = Sum.inl ex) :
    ex.busyRestored = true := by
  simp only [stabTick] at h
  split at h
  · rw [Sum.inl.injEq] at h
    rw [← h]
    rfl
  · split at h
    · rw [Sum.inl.injEq] at h
      rw [← h]
      rfl
    · exact absurd h (by simp)

lemma stabTick_inr (targetMode : Mode) (minH startedAt : Nat)
    (env : StabEnv) (i : Nat) (s : StabState) (s1 : StabState)
    (h : stabTick targetMode minH startedAt env i s = Sum.inr s1) :
    env.mode i = targetMode ∧ env.time i - startedAt < 450 := by
  simp only [stabTick] at h
  by_cases hm : env.mode i = targetMode
  · rw [if_neg (by simp [hm])] at h
    refine ⟨hm, ?_⟩
    by_contra hc
    push_neg at hc
    rw [if_pos (Or.inr hc)] at h
    exact absurd h (by simp)
  · rw [if_pos (by simp [hm])] at h
    exact absurd h (by simp)

lemma stabRun_busyRestored (targetMode : Mode) (minH startedAt : Nat)
    (env : StabEnv) :
    ∀ (fuel i : Nat) (s : StabState) (ex : StabExit),
      stabRun targetMode minH startedAt env i s fuel = some ex →
      ex.busyRestored = true := by
  intro fuel
  induction fuel with
  | zero => intro i s ex h; exact absurd h (by simp [stabRun])
  | succ f ih =>
    intro i s ex h
    unfold stabRun at h
    cases hstep : stabTick targetMode minH startedAt env i s with
    | inl e =>
      rw [hstep] at h
      simp only [Option.some_inj] at h
      rw [← h]
      exact stabTick_inl targetMode minH startedAt env i s e hstep
    | inr s1 =>
      rw [hstep] at h
      exact ih (i + 1) s1 ex h

lemma stabEnv_time_lower (env : StabEnv)
    (htime : ∀ i, env.time i + 1 ≤ env.time (i + 1)) :
    ∀ i, env.time 0 + i ≤ env.time i := by
  intro i
  induction i with
  | zero => omega
  | succ j ih =>
    have := htime j
    omega

lemma stabRun_terminates (targetMode : Mode) (minH startedAt : Nat)
    (env : StabEnv)
    (htime : ∀ i, env.time i + 1 ≤ env.time (i + 1))
    (hstart : startedAt ≤ env.time 0) :
    ∀ (fuel i : Nat) (s : StabState),
      1 ≤ fuel → 451 ≤ fuel + (env.time i - startedAt) →
      (stabRun targetMode minH startedAt env i s fuel).isSome = true := by
  intro fuel
  induction fuel with
  | zero => intro i s h1 _; omega
  | succ f ih =>
    intro i s _ hbound
    unfold stabRun
    cases hstep : stabTick targetMode minH startedAt env i s with
    | inl ex => simp
    | inr s1 =>
      show (stabRun targetMode minH startedAt env (i + 1) s1 f).isSome = true
      obtain ⟨hm, hlt⟩ :=
        stabTick_inr targetMode minH startedAt env i s s1 hstep
      have h1 := htime i
      have h2 := stabEnv_time_lower env htime i
      have hfl : 1 ≤ f := by omega
      apply ih (i + 1) s1 hfl
      omega

/-- C10 amended: every invocation of `stabilizeHeightOnModeEntry`
terminates and restores the iframe: provided frame timestamps strictly
increase, the tick loop exits within 451 frames — when the mode leaves
the target, when three consecutive applied heights are pairwise within
2px (two consecutive stable frames, not two measurements), or once
450ms have elapsed — and every possible exit path invokes
`setIframeBusy(iframe, false)`. -/
theorem stabilize_terminates_and_restores (targetMode : Mode)
    (minH startedAt : Nat) (env : StabEnv)
    (htime : ∀ i, env.time i + 1 ≤ env.time (i + 1))
    (hstart : startedAt ≤ env.time 0) :
    (∃ ex : StabExit,
      stabRun targetMode minH startedAt env 0 stabInit 451 = some ex) ∧
    (∀ (fuel i : Nat) (s : StabState) (ex : StabExit),
      stabRun targetMode minH startedAt env i s fuel = some ex →
      ex.busyRestored = true) := by
  constructor
  · have h := stabRun_terminates targetMode minH startedAt env htime hstart
      451 0 stabInit (by omega) (by omega)
    cases hr : stabRun targetMode minH startedAt env 0 stabInit 451 with
    | none => rw [hr] at h; simp at h
    | some ex => exact ⟨ex, rfl⟩
  · exact stabRun_busyRestored targetMode minH startedAt env

/-- Witness for the amended C10: with steady target mode, strictly
increasing times and constant content, the run exits (at the third
frame, two consecutive stable frames) and that exit restored the busy
flag. -/
theorem stabilize_terminates_and_restores_witness :
    (∃ ex : StabExit,
      stabRun .overview_mode 400 0
        { time := fun i => i + 1, mode := fun _ => .overview_mode,
          content := fun _ => 500 }
        0 stabInit 451 = some ex) ∧
    (StabExit.finished true 500).busyRestored = true := by
  have h := stabilize_terminates_and_restores .overview_mode 400 0
    { time := fun i => i + 1, mode := fun _ => .overview_mode,
      content := fun _ => 500 }
    (fun i => Nat.le_refl _) (Nat.zero_le _)
  refine ⟨h.1, ?_⟩
  exact h.2 451 0 stabInit (StabExit.finished true 500) (by rfl)

end DemandVox
